import Mathlib

/-!
Verification of `src/app.py` (RedisLeaseGuard repository): a module-level
Python script that, inside a `try`, constructs an `MCPClient`, retrieves
tools, constructs an `InferenceClientModel` and a `CodeAgent`, builds a
`gr.ChatInterface` and launches it; the `finally` block runs
`if hasattr(mcp_client, "close"): mcp_client.close()`.

The script is embedded as a trace semantics: an `Env` records which of the
external calls raises (the libraries are external collaborators), `runScript`
replays the script under that environment, producing the sequence of calls
made (`trace`), the final `Outcome` (normal exit or an uncaught exception,
with its chained context as Python chains an exception superseded inside a
`finally`), and the values the script bound along the way.

Python name-binding semantics matter in the `finally` block: when
`MCPClient(...)` raises, the module-level name `mcp_client` was never bound,
so evaluating `hasattr(mcp_client, "close")` raises `NameError` before
`hasattr` is ever entered.
-/

namespace App

/-- Exceptions the script can observe: one per external call that may raise,
plus the `NameError` produced by evaluating the unbound name `mcp_client`
in the `finally` block. -/
inductive Exc where
  | mcpConstructErr
  | getToolsErr
  | modelErr
  | agentErr
  | chatErr
  | launchErr
  | nameError
deriving DecidableEq, Repr

/-- The observable calls the script makes, in source order; `printError`
occurs only in the second script variant (which prints caught setup
exceptions). -/
inductive Event where
  | mcpConstruct
  | getTools
  | modelConstruct
  | agentConstruct
  | chatConstruct
  | launch
  | hasattrCheck
  | close
  | printError
deriving DecidableEq, Repr

/-- A tool descriptor, identified by its name (spec section 3: name, input
schema, invocation endpoint; only identity matters to the script). -/
structure Tool where
  name : String
deriving DecidableEq, Repr

/-- The environment of external behaviors: for each external call, whether
it raises; whether the constructed client object has a `close` attribute
(a property of the external `MCPClient` class); and the tool descriptors
`get_tools()` returns. Per spec section 4.1 the connector contract makes
`close()` itself never raise. -/
structure Env where
  mcpRaises : Bool
  getToolsRaises : Bool
  modelRaises : Bool
  agentRaises : Bool
  chatRaises : Bool
  launchRaises : Bool
  hasCloseAttr : Bool
  toolsRet : List Tool
deriving DecidableEq, Repr

/-- Process outcome: clean exit, or an uncaught exception `e` propagating
out of the module (non-zero exit); `ctx` is the chained exception that was
pending when `e` superseded it inside the `finally` block (Python's
implicit exception context), `none` when there was none. -/
inductive Outcome where
  | normal
  | uncaught (e : Exc) (ctx : Option Exc)
deriving DecidableEq, Repr

/-- The keyword arguments of the `InferenceClientModel(...)` call:
`model_id` and `api_url`, each `none` when omitted (omission selects the
library's ambient-default resolution path). -/
structure InferenceClientModelCfg where
  model_id : Option String
  api_url : Option String
deriving DecidableEq, Repr

/-- The literal `InferenceClientModel` configuration at src/app.py lines
17-20: a fixed model identifier and an explicit API URL. -/
def model : InferenceClientModelCfg :=
  { model_id := some "mistralai/Mistral-7B-Instruct-v0.2"
    api_url := some "https://api-inference.huggingface.co/models/mistralai/Mistral-7B-Instruct-v0.2" }

/-- The keyword arguments of the `gr.ChatInterface(...)` call at
src/app.py lines 23-29 (the response function is modelled separately as
`respond`). -/
structure ChatConfig where
  type : String
  examples : List String
  title : String
  description : String
deriving DecidableEq, Repr

/-- The literal `ChatInterface` configuration from src/app.py lines 23-29. -/
def demo : ChatConfig :=
  { type := "messages"
    examples := ["Prime factorization of 68"]
    title := "Agent with MCP Tools"
    description := "This is a simple agent that uses MCP tools to answer questions." }

/-- The `[*tools]` list-unpacking expression at src/app.py line 21: builds a
fresh list holding the same elements. -/
def listCopy (l : List α) : List α := l.foldr (· :: ·) []

/-- Result of running the `try` body (src/app.py lines 10-31): the calls
made, the pending exception if one was raised, whether the name
`mcp_client` got bound, and the values bound for the agent's tool list and
the inference-model configuration. -/
structure BodyResult where
  trace : List Event
  err : Option Exc
  clientBound : Bool
  agentTools : Option (List Tool)
  modelCfg : Option InferenceClientModelCfg
deriving DecidableEq, Repr

/-- The `try` body of src/app.py lines 10-31, run under `env`: each call is
made in source order until one raises; `mcp_client` is bound exactly when
`MCPClient(...)` returned, `tools` after `get_tools()`, the agent is
constructed with `[*tools]` (a copy), and the model with the literal
configuration `model`. -/
def tryBody (env : Env) : BodyResult :=
  if env.mcpRaises then
    ⟨[.mcpConstruct], some .mcpConstructErr, false, none, none⟩
  else if env.getToolsRaises then
    ⟨[.mcpConstruct, .getTools], some .getToolsErr, true, none, none⟩
  else if env.modelRaises then
    ⟨[.mcpConstruct, .getTools, .modelConstruct], some .modelErr, true, none, none⟩
  else if env.agentRaises then
    ⟨[.mcpConstruct, .getTools, .modelConstruct, .agentConstruct],
      some .agentErr, true, none, some model⟩
  else if env.chatRaises then
    ⟨[.mcpConstruct, .getTools, .modelConstruct, .agentConstruct, .chatConstruct],
      some .chatErr, true, some (listCopy env.toolsRet), some model⟩
  else if env.launchRaises then
    ⟨[.mcpConstruct, .getTools, .modelConstruct, .agentConstruct, .chatConstruct, .launch],
      some .launchErr, true, some (listCopy env.toolsRet), some model⟩
  else
    ⟨[.mcpConstruct, .getTools, .modelConstruct, .agentConstruct, .chatConstruct, .launch],
      none, true, some (listCopy env.toolsRet), some model⟩

/-- The `finally` block of src/app.py lines 32-34, given whether the name
`mcp_client` is bound and whether the bound object has a `close` attribute.
If the name is unbound, evaluating `hasattr(mcp_client, "close")` raises
`NameError` before the check completes; otherwise the check runs and
`close()` is called exactly when the attribute exists (and, per the
connector contract of spec section 4.1, does not itself raise). -/
def finallyBlock (clientBound : Bool) (hasClose : Bool) : List Event × Option Exc :=
  if clientBound then
    if hasClose then ([.hasattrCheck, .close], none)
    else ([.hasattrCheck], none)
  else ([], some .nameError)

/-- Result of a whole script run. -/
structure ScriptResult where
  trace : List Event
  outcome : Outcome
  agentTools : Option (List Tool)
  modelCfg : Option InferenceClientModelCfg
deriving DecidableEq, Repr

/-- The whole script src/app.py under environment `env`: run the `try`
body, then the `finally` block; per Python semantics, an exception raised
inside the `finally` supersedes a pending body exception (which becomes its
chained context), while a pending body exception propagates unchanged when
the `finally` completes. -/
def runScript (env : Env) : ScriptResult :=
  let b := tryBody env
  let f := finallyBlock b.clientBound env.hasCloseAttr
  let outcome : Outcome :=
    match f.2, b.err with
    | some fe, be => .uncaught fe be
    | none, some be => .uncaught be none
    | none, none => .normal
  ⟨b.trace ++ f.1, outcome, b.agentTools, b.modelCfg⟩

/-- Modelled from the spec: the repository's second near-duplicate script
(spec variant 1) is not under src/. Per spec sections 6-8 it runs the same
body, but catches any exception raised there, prints it to standard output
and does not propagate it; its `finally` then invokes `close()`
unconditionally (no capability check), and per spec section 4.1 `close()`
is safe to call even when `connect` never succeeded. -/
def runScriptV1 (env : Env) : ScriptResult :=
  let b := tryBody env
  let printTrace : List Event :=
    match b.err with
    | some _ => [.printError]
    | none => []
  ⟨b.trace ++ printTrace ++ [.close], .normal, b.agentTools, b.modelCfg⟩

/-- A Python runtime value, as far as the response lambda can observe:
`str(...)` is total on all of them. -/
inductive PyVal where
  | vstr : String → PyVal
  | vint : Int → PyVal
  | vbool : Bool → PyVal
  | vnone : PyVal
deriving DecidableEq, Repr

/-- Python `str(...)` on the modelled values. -/
def pyStr : PyVal → String
  | .vstr s => s
  | .vint n => toString n
  | .vbool true => "True"
  | .vbool false => "False"
  | .vnone => "None"

/-- The response function at src/app.py line 24,
`lambda message, history: str(agent.run(message))`, with `agent.run`
abstracted as `run` (it may raise, hence `Except`): the lambda passes
`message` to `run`, applies `str` to the result, and contains no exception
handling of its own. `history` is a role-tagged message list retained by
the UI layer. -/
def respond (run : String → Except Exc PyVal) (message : String)
    (_history : List (String × String)) : Except Exc PyVal :=
  match run message with
  | .error e => .error e
  | .ok v => .ok (.vstr (pyStr v))

/-- The argument the response lambda passes to `agent.run`: the incoming
`message`, with `history` unused (src/app.py line 24). -/
def respondCallArg (message : String) (_history : List (String × String)) : String :=
  message

/-- The exception a run lets propagate out of the module, `none` on a clean
exit. -/
def propagated (r : ScriptResult) : Option Exc :=
  match r.outcome with
  | .normal => none
  | .uncaught e _ => some e

/-- The chained context of the exception a run lets propagate (Python's
implicit exception chaining when a `finally` raises over a pending
exception), `none` otherwise. -/
def chainedCtx (r : ScriptResult) : Option Exc :=
  match r.outcome with
  | .normal => none
  | .uncaught _ c => c

/-- Environment where `MCPClient(...)` raises (for example, the tool-source
endpoint is unreachable) and every later call would have succeeded. -/
def envDown : Env := ⟨true, false, false, false, false, false, true, []⟩

/-- A second unreachable-endpoint environment. -/
def envDown2 : Env := ⟨true, false, false, false, false, false, false, []⟩

/-- Environment where construction succeeds but `get_tools()` raises. -/
def envW2 : Env := ⟨false, true, false, false, false, false, true, []⟩

/-- Environment where every call succeeds and one tool is retrieved. -/
def envW5 : Env := ⟨false, false, false, false, false, false, true, [⟨"prime_factors"⟩]⟩

/-- Environment where everything succeeds up to `launch()`, which raises. -/
def envW6 : Env := ⟨false, false, false, false, false, true, true, []⟩

/-- Unreachable-endpoint environment for the variant-1 script. -/
def envDownV1 : Env := ⟨true, false, false, false, false, false, true, []⟩

/-- Fully successful environment with no tools. -/
def envW10 : Env := ⟨false, false, false, false, false, false, true, []⟩

theorem listCopy_eq (l : List α) : listCopy l = l := by
  induction l with
  | nil => rfl
  | cons a t ih =>
    show a :: listCopy t = a :: t
    rw [ih]

/-- Helper: the agent's bound tool list, when the agent was constructed, is
exactly the retrieved tool list (the `[*tools]` copy preserves elements). -/
theorem agentTools_cases (env : Env) :
    (runScript env).agentTools = none ∨
    (runScript env).agentTools = some env.toolsRet := by
  obtain ⟨m, g, mo, a, c, l, hc, ts⟩ := env
  cases m <;> cases g <;> cases mo <;> cases a <;> cases c <;> cases l <;> cases hc <;>
    first
      | exact Or.inl rfl
      | (refine Or.inr ?_
         show some (listCopy ts) = some ts
         rw [listCopy_eq])

/-- Helper: the inference-model configuration, when the model was
constructed, is exactly the literal configuration `model`. -/
theorem modelCfg_cases (env : Env) :
    (runScript env).modelCfg = none ∨ (runScript env).modelCfg = some model := by
  obtain ⟨m, g, mo, a, c, l, hc, ts⟩ := env
  cases m <;> cases g <;> cases mo <;> cases a <;> cases c <;> cases l <;> cases hc <;>
    first
      | exact Or.inl rfl
      | exact Or.inr rfl

/-- C1: at the failing input -- MCPClient construction raises, for example
because the endpoint is unreachable -- the cleanup step does not complete
without raising: the finally block evaluates the unbound name `mcp_client`
inside `hasattr(mcp_client, "close")`, which raises NameError before the
capability check can run, so `close()` is never reached and the NameError
propagates with the construction exception as its chained context. -/
theorem cleanup_nameError_when_construct_raises :
    (runScript envDown).trace = [Event.mcpConstruct] ∧
    Event.close ∉ (runScript envDown).trace ∧
    (runScript envDown).outcome = .uncaught .nameError (some .mcpConstructErr) := by
  decide

/-- C2 counterexample: when the tool-source endpoint is unreachable,
MCPClient construction raises mcpConstructErr, yet that setup exception is
not what propagates out of the module -- the finally block's NameError
propagates instead. -/
theorem construct_exc_not_propagated :
    (tryBody envDown2).err = some Exc.mcpConstructErr ∧
    propagated (runScript envDown2) ≠ some Exc.mcpConstructErr := by
  decide

/-- C2 (amended): the script catches nothing, and every run with a pending
setup exception exits non-zero. When MCPClient construction succeeded, the
setup exception propagates out unchanged (no chained context) and `close()`
is still invoked when the client has a `close` attribute; when MCPClient
construction itself raised, the process still exits non-zero, but what
propagates is the finally block's NameError with the setup exception as its
chained context, and `close()` is not invoked. -/
theorem setup_exc_propagation (env : Env) :
    (env.mcpRaises = false → (tryBody env).err.isSome = true →
      propagated (runScript env) = (tryBody env).err ∧
      chainedCtx (runScript env) = none ∧
      (env.hasCloseAttr = true → Event.close ∈ (runScript env).trace)) ∧
    (env.mcpRaises = true →
      propagated (runScript env) = some Exc.nameError ∧
      chainedCtx (runScript env) = some Exc.mcpConstructErr ∧
      Event.close ∉ (runScript env).trace) := by
  obtain ⟨m, g, mo, a, c, l, hc, ts⟩ := env
  cases m <;> cases g <;> cases mo <;> cases a <;> cases c <;> cases l <;> cases hc <;>
    simp [runScript, tryBody, finallyBlock, propagated, chainedCtx]

/-- C2 witness: concrete run where `get_tools()` raises -- the exception
propagates unchanged and `close()` is still invoked. -/
theorem setup_exc_propagation_witness :
    propagated (runScript envW2) = (tryBody envW2).err ∧
    Event.close ∈ (runScript envW2).trace :=
  ⟨((setup_exc_propagation envW2).1 rfl rfl).1,
    ((setup_exc_propagation envW2).1 rfl rfl).2.2 rfl⟩

/-- C3: the response function's result, and the argument it hands to
`agent.run`, are identical for two calls with the same message and any two
histories: history has no observable effect. -/
theorem history_irrelevant (run : String → Except Exc PyVal) (msg : String)
    (h1 h2 : List (String × String)) :
    respondCallArg msg h1 = respondCallArg msg h2 ∧
    respond run msg h1 = respond run msg h2 :=
  ⟨rfl, rfl⟩

/-- C4: whenever `agent.run` returns a value, the response function returns
exactly its stringification, and every value the response function hands to
the chat interface is a string. -/
theorem respond_stringifies (run : String → Except Exc PyVal) (msg : String)
    (hist : List (String × String)) :
    (∀ v, run msg = .ok v → respond run msg hist = .ok (.vstr (pyStr v))) ∧
    (∀ v, respond run msg hist = .ok v → ∃ s, v = .vstr s) := by
  constructor
  · intro v h
    simp [respond, h]
  · intro v h
    unfold respond at h
    cases hr : run msg with
    | error e => rw [hr] at h; cases h
    | ok w =>
      rw [hr] at h
      injection h with h
      exact ⟨pyStr w, h.symm⟩

/-- C4 witness: `agent.run` returning the integer 68 is displayed as the
string "68". -/
theorem respond_stringifies_witness :
    respond (fun _ => .ok (.vint 68)) "Prime factorization of 68" [] =
      .ok (.vstr "68") :=
  (respond_stringifies (fun _ => .ok (.vint 68)) "Prime factorization of 68" []).1
    (.vint 68) rfl

/-- C5: `get_tools()` is called exactly once whenever MCPClient construction
succeeded (and never otherwise); whenever the agent is constructed, the
tool retrieval happened strictly before it; and the agent's bound tool list
is exactly the retrieved descriptors (the `[*tools]` copy), never refreshed
or mutated afterwards. -/
theorem tools_fetched_once (env : Env) :
    (runScript env).trace.count Event.getTools =
      (if env.mcpRaises = true then 0 else 1) ∧
    (Event.agentConstruct ∈ (runScript env).trace →
      Event.getTools ∈ (runScript env).trace ∧
      (runScript env).trace.indexOf Event.getTools <
        (runScript env).trace.indexOf Event.agentConstruct) ∧
    (∀ ts2, (runScript env).agentTools = some ts2 → ts2 = env.toolsRet) := by
  refine ⟨?_, ?_, ?_⟩
  · obtain ⟨m, g, mo, a, c, l, hc, ts⟩ := env
    cases m <;> cases g <;> cases mo <;> cases a <;> cases c <;> cases l <;> cases hc <;>
      simp [runScript, tryBody, finallyBlock]
  · obtain ⟨m, g, mo, a, c, l, hc, ts⟩ := env
    cases m <;> cases g <;> cases mo <;> cases a <;> cases c <;> cases l <;> cases hc <;>
      simp [runScript, tryBody, finallyBlock]
  · intro ts2 h
    rcases agentTools_cases env with h2 | h2 <;> rw [h2] at h
    · cases h
    · injection h with h
      exact h.symm

/-- C5 witness: on a fully successful run with one retrieved tool,
`get_tools()` is called exactly once, before the agent is constructed, and
the agent is bound to exactly that tool list. -/
theorem tools_fetched_once_witness :
    (runScript envW5).trace.count Event.getTools = 1 ∧
    Event.getTools ∈ (runScript envW5).trace ∧
    (runScript envW5).trace.indexOf Event.getTools <
      (runScript envW5).trace.indexOf Event.agentConstruct ∧
    ([⟨"prime_factors"⟩] : List Tool) = envW5.toolsRet :=
  ⟨(tools_fetched_once envW5).1,
    ((tools_fetched_once envW5).2.1 (by decide)).1,
    ((tools_fetched_once envW5).2.1 (by decide)).2,
    (tools_fetched_once envW5).2.2 [⟨"prime_factors"⟩] rfl⟩

/-- C6: in every run where MCPClient construction succeeds and the client
has a `close` attribute, `close()` is invoked exactly once and is the last
call of the whole run -- the handle is never used after it -- on every exit
path (later steps raising or `launch()` returning). -/
theorem close_once_and_last (env : Env)
    (hm : env.mcpRaises = false) (hc : env.hasCloseAttr = true) :
    (runScript env).trace.count Event.close = 1 ∧
    (runScript env).trace.getLast? = some Event.close := by
  obtain ⟨m, g, mo, a, c, l, hca, ts⟩ := env
  cases m <;> cases hca <;>
    first
      | exact Bool.noConfusion hm
      | exact Bool.noConfusion hc
      | (cases g <;> cases mo <;> cases a <;> cases c <;> cases l <;>
          simp [runScript, tryBody, finallyBlock])

/-- C6 witness: concrete run where `launch()` raises -- `close()` is still
invoked exactly once, as the final call. -/
theorem close_once_and_last_witness :
    (runScript envW6).trace.count Event.close = 1 ∧
    (runScript envW6).trace.getLast? = some Event.close :=
  close_once_and_last envW6 rfl rfl

/-- C7: the response function contains no per-message exception handling:
whenever `agent.run` raises, the same exception propagates out of the
response function unchanged. -/
theorem run_exc_propagates (run : String → Except Exc PyVal) (msg : String)
    (hist : List (String × String)) (e : Exc) (h : run msg = .error e) :
    respond run msg hist = .error e := by
  simp [respond, h]

/-- C7 witness: a concrete raising `agent.run` propagates its exception
through the response function. -/
theorem run_exc_propagates_witness :
    respond (fun _ => .error Exc.agentErr) "Prime factorization of 68" [] =
      .error Exc.agentErr :=
  run_exc_propagates (fun _ => .error Exc.agentErr) "Prime factorization of 68" []
    Exc.agentErr rfl

/-- C8: the chat interface is constructed with exactly one example prompt,
"Prime factorization of 68", and with the given title and description
verbatim. -/
theorem chat_config_literal :
    demo.examples = ["Prime factorization of 68"] ∧
    demo.examples.length = 1 ∧
    demo.title = "Agent with MCP Tools" ∧
    demo.description = "This is a simple agent that uses MCP tools to answer questions." :=
  ⟨rfl, rfl, rfl, rfl⟩

/-- C9 (variant 1, modelled from the spec because only one script is under
src/): every run of the variant-1 script exits normally (setup exceptions
are caught, never propagated), `close()` is always invoked, and whenever
the body raised, the exception is printed to standard output. -/
theorem v1_catches_prints_closes (env : Env) :
    (runScriptV1 env).outcome = .normal ∧
    Event.close ∈ (runScriptV1 env).trace ∧
    ((tryBody env).err.isSome = true →
      Event.printError ∈ (runScriptV1 env).trace) := by
  obtain ⟨m, g, mo, a, c, l, hc, ts⟩ := env
  cases m <;> cases g <;> cases mo <;> cases a <;> cases c <;> cases l <;>
    simp [runScriptV1, tryBody]

/-- C9 witness: variant 1 with an unreachable endpoint prints the error,
does not propagate it, and still invokes `close()`. -/
theorem v1_catches_prints_closes_witness :
    (runScriptV1 envDownV1).outcome = .normal ∧
    Event.close ∈ (runScriptV1 envDownV1).trace ∧
    Event.printError ∈ (runScriptV1 envDownV1).trace :=
  ⟨(v1_catches_prints_closes envDownV1).1,
    (v1_catches_prints_closes envDownV1).2.1,
    (v1_catches_prints_closes envDownV1).2.2 rfl⟩

/-- C10: the inference client is constructed with the fixed model identifier
and an explicit API URL for that model; neither keyword is omitted, so the
ambient-default resolution path is never taken, and every run that
constructs the model uses exactly this configuration. -/
theorem model_config_fixed (env : Env) :
    model.model_id = some "mistralai/Mistral-7B-Instruct-v0.2" ∧
    model.api_url =
      some "https://api-inference.huggingface.co/models/mistralai/Mistral-7B-Instruct-v0.2" ∧
    model.model_id ≠ none ∧
    model.api_url ≠ none ∧
    (∀ c, (runScript env).modelCfg = some c → c = model) := by
  refine ⟨rfl, rfl, by simp [model], by simp [model], ?_⟩
  intro c h
  rcases modelCfg_cases env with h2 | h2 <;> rw [h2] at h
  · cases h
  · injection h with h
    exact h.symm

/-- C10 witness: on a fully successful run the constructed model
configuration is exactly the fixed literal one. -/
theorem model_config_fixed_witness :
    model.model_id = some "mistralai/Mistral-7B-Instruct-v0.2" ∧
    ((model : InferenceClientModelCfg) = model) :=
  ⟨(model_config_fixed envW10).1,
    (model_config_fixed envW10).2.2.2.2 model rfl⟩

end App
